import Mathlib

/-!
Shallow embedding of the billing-service credit-ledger core:
the deduction endpoint (src/routes/credits.ts), the balance and
mode endpoints (src/routes/accounts.ts), and the checkout-completed
webhook handler (src/routes/webhooks.ts), together with theorems
checking the specification's claims about them.
-/

namespace Billing

/-- Billing mode stored in `billing_accounts.billing_mode`
(src/db/schema.ts, constrained to the enum by `BillingModeSchema`). -/
inductive BillingMode
  | trial
  | byok
  | payg
  deriving DecidableEq, Repr

/-- One `billing_accounts` row (src/db/schema.ts), restricted to the
columns the deduction, balance, mode and webhook handlers read. -/
structure Account where
  billing_mode : BillingMode
  stripe_customer_id : Option String
  credit_balance_cents : Int
  reload_amount_cents : Option Int
  reload_threshold_cents : Option Int
  stripe_payment_method_id : Option String
  deriving DecidableEq, Repr

/-- JavaScript truthiness of a `string | null` column: `null` and the
empty string are falsy. -/
def truthyStr : Option String → Bool
  | none => false
  | some s => !(s = "")

/-- JavaScript truthiness of a `number | null` column: `null` and `0`
are falsy. -/
def truthyInt : Option Int → Bool
  | none => false
  | some n => !(n = 0)

/-- Outcomes of the remote payment-provider calls and of the local
balance update that the deduct handler performs; the handler cannot
observe them in advance, so the embedding takes them as an oracle.
`chargeOk` is `chargePaymentMethod` in the synchronous reload
(credits.ts line 83), `creditOk` the `createBalanceTransaction` of
`-reload` (line 92), `localUpdateOk` the `tx.update` persisting the
reloaded balance (line 101), `asyncRecordOk` the fire-and-forget
`createBalanceTransaction` of `+amount` (line 142), and
`bgChargeOk` / `bgCreditOk` the two remote calls of the background
reload task (lines 169-170). -/
structure RemoteEnv where
  chargeOk : Bool
  creditOk : Bool
  localUpdateOk : Bool
  asyncRecordOk : Bool
  bgChargeOk : Bool
  bgCreditOk : Bool
  deriving DecidableEq, Repr

/-- Body of the deduct response (`DeductResponseSchema` in schemas.ts). -/
structure DeductResult where
  success : Bool
  balance_cents : Option Int
  billing_mode : BillingMode
  depleted : Bool
  deriving DecidableEq, Repr

/-- A remote payment-provider call attempted by the handler, with the
amount passed and whether it succeeded. -/
inductive RemoteCall
  | charge (amountCents : Int) (succeeded : Bool)
  | balanceTx (amountCents : Int) (succeeded : Bool)
  deriving DecidableEq, Repr

/-- Everything observable about one run of the deduct transaction:
the response body, the `credit_balance_cents` value committed by the
transaction, the remote calls awaited inside the critical section,
whether the fire-and-forget `+amount` balance transaction was fired
(credits.ts line 141: only when `stripe_customer_id` is truthy), and
`some r` when a background reload of `r` cents was scheduled. -/
structure DeductEffects where
  result : DeductResult
  txBalance : Int
  syncCalls : List RemoteCall
  asyncRecordFired : Bool
  bgReload : Option Int
  deriving DecidableEq, Repr

/-- The auto-reload guard of credits.ts lines 76-79 (and, minus the
mode test, of the threshold check at lines 157-160): PAYG mode with a
truthy payment method, customer id and reload amount. -/
def reloadConfigured (a : Account) : Bool :=
  decide (a.billing_mode = .payg) &&
    truthyStr a.stripe_payment_method_id &&
    truthyStr a.stripe_customer_id &&
    truthyInt a.reload_amount_cents

/-- The depleted response of credits.ts lines 110-115 and 121-126:
`success=false, depleted=true` with the balance current at that point. -/
def depletedResult (mode : BillingMode) (balance : Int) : DeductResult :=
  { success := false, balance_cents := some balance,
    billing_mode := mode, depleted := true }

/-- Lines 130-189 of credits.ts, reached once the balance is
sufficient: debit `amount_cents` and persist `newBalance`, fire the
async `+amount` balance transaction when the customer id is truthy,
and schedule a background reload when the post-debit balance is below
`reload_threshold_cents ?? 200` and the PAYG reload guard holds. -/
def debitPhase (a : Account) (amount_cents : Int) (currentBalance : Int)
    (syncCalls : List RemoteCall) : DeductEffects :=
  { result := { success := true,
                balance_cents := some (currentBalance - amount_cents),
                billing_mode := a.billing_mode, depleted := false },
    txBalance := currentBalance - amount_cents,
    syncCalls := syncCalls,
    asyncRecordFired := truthyStr a.stripe_customer_id,
    bgReload :=
      if currentBalance - amount_cents < (a.reload_threshold_cents.getD 200) then
        (if reloadConfigured a then a.reload_amount_cents else none)
      else none }

/-- The immediate BYOK response of credits.ts lines 61-68: success
with a `null` balance, no mutation, no remote call. -/
def byokEffects (a : Account) : DeductEffects :=
  { result := { success := true, balance_cents := none,
                billing_mode := .byok, depleted := false },
    txBalance := a.credit_balance_cents,
    syncCalls := [], asyncRecordFired := false, bgReload := none }

/-- The deduct transaction of credits.ts lines 56-189 for an existing
account. BYOK returns immediately; otherwise an insufficient balance
triggers the synchronous auto-reload when configured, whose single
`try/catch` (lines 81-116) turns a failure of the charge, of the
`-reload` credit, or of the local update into a depleted response;
after a successful reload the balance is re-checked (line 120), and a
sufficient balance proceeds to the debit phase. -/
def deductTx (a : Account) (amount_cents : Int) (env : RemoteEnv) : DeductEffects :=
  if a.billing_mode = .byok then
    byokEffects a
  else if a.credit_balance_cents < amount_cents then
    if reloadConfigured a then
      if env.chargeOk then
        if env.creditOk then
          if env.localUpdateOk then
            if a.credit_balance_cents + a.reload_amount_cents.getD 0 < amount_cents then
              { result := depletedResult a.billing_mode
                  (a.credit_balance_cents + a.reload_amount_cents.getD 0),
                txBalance := a.credit_balance_cents + a.reload_amount_cents.getD 0,
                syncCalls := [.charge (a.reload_amount_cents.getD 0) true,
                              .balanceTx (-(a.reload_amount_cents.getD 0)) true],
                asyncRecordFired := false, bgReload := none }
            else
              debitPhase a amount_cents
                (a.credit_balance_cents + a.reload_amount_cents.getD 0)
                [.charge (a.reload_amount_cents.getD 0) true,
                 .balanceTx (-(a.reload_amount_cents.getD 0)) true]
          else
            { result := depletedResult a.billing_mode
                (a.credit_balance_cents + a.reload_amount_cents.getD 0),
              txBalance := a.credit_balance_cents,
              syncCalls := [.charge (a.reload_amount_cents.getD 0) true,
                            .balanceTx (-(a.reload_amount_cents.getD 0)) true],
              asyncRecordFired := false, bgReload := none }
        else
          { result := depletedResult a.billing_mode a.credit_balance_cents,
            txBalance := a.credit_balance_cents,
            syncCalls := [.charge (a.reload_amount_cents.getD 0) true,
                          .balanceTx (-(a.reload_amount_cents.getD 0)) false],
            asyncRecordFired := false, bgReload := none }
      else
        { result := depletedResult a.billing_mode a.credit_balance_cents,
          txBalance := a.credit_balance_cents,
          syncCalls := [.charge (a.reload_amount_cents.getD 0) false],
          asyncRecordFired := false, bgReload := none }
    else
      { result := depletedResult a.billing_mode a.credit_balance_cents,
        txBalance := a.credit_balance_cents,
        syncCalls := [], asyncRecordFired := false, bgReload := none }
  else
    debitPhase a amount_cents a.credit_balance_cents []

/-- POST /v1/credits/deduct on a looked-up row: `none` is the 404 of
credits.ts lines 56-58. -/
def deduct (account? : Option Account) (amount_cents : Int) (env : RemoteEnv) :
    Option DeductEffects :=
  match account? with
  | none => none
  | some a => some (deductTx a amount_cents env)

/-- Effect of the background reload task (credits.ts lines 166-181) on
the stored balance found in the row when the task runs: the charge and
the `-reload` credit are awaited in order, any failure is caught and
only logged, and on success the stored balance is incremented in place
by `reload` (raw SQL `credit_balance_cents + reload`, line 174). -/
def bgReloadApply (bg : Option Int) (chargeOk creditOk : Bool) (stored : Int) : Int :=
  match bg with
  | none => stored
  | some r => if chargeOk then (if creditOk then stored + r else stored) else stored

/-- Body of GET /v1/accounts/balance (accounts.ts lines 105-109). -/
structure BalanceResponse where
  balance_cents : Int
  billing_mode : BillingMode
  depleted : Bool
  deriving DecidableEq, Repr

/-- GET /v1/accounts/balance for an existing account: reports the
cached balance and `depleted` exactly when `credit_balance_cents <= 0`. -/
def accountsBalance (a : Account) : BalanceResponse :=
  { balance_cents := a.credit_balance_cents,
    billing_mode := a.billing_mode,
    depleted := decide (a.credit_balance_cents ≤ 0) }

/-- A mode accepted by `UpdateModeRequestSchema` (schemas.ts lines
59-64): the zod enum admits only `byok` and `payg`, so `trial` is
rejected at parse time. -/
inductive ReqMode
  | byok
  | payg
  deriving DecidableEq, Repr

/-- Zod parse of the PATCH /v1/accounts/mode body: `mode` must be the
string `byok` or `payg`, and `reload_amount_cents`, when present, must
be a positive integer. -/
def parseUpdateMode (mode : String) (reload_amount_cents : Option Int) :
    Option (ReqMode × Option Int) :=
  (if mode = "byok" then some ReqMode.byok
   else if mode = "payg" then some ReqMode.payg
   else none).bind fun m =>
    match reload_amount_cents with
    | none => some (m, none)
    | some n => if 0 < n then some (m, some n) else none

/-- Outcome of PATCH /v1/accounts/mode. `validationError` is the 400
from the zod parse, `badRequest` the 400s of accounts.ts lines 198-212
(the account row is carried to express that it was left unchanged),
and `ok` the 200 with the updated row. -/
inductive ModeUpdateOutcome
  | validationError
  | notFound
  | badRequest (account : Account)
  | ok (account : Account)
  deriving DecidableEq, Repr

/-- PATCH /v1/accounts/mode (accounts.ts lines 171-234): parse the
body; 404 on a missing account; for `payg`, reject when the stored
payment method is falsy or the supplied reload amount is falsy,
otherwise persist the new mode, storing the reload amount only on the
`payg` path. -/
def updateMode (account? : Option Account) (mode : String)
    (reload_amount_cents : Option Int) : ModeUpdateOutcome :=
  match parseUpdateMode mode reload_amount_cents with
  | none => .validationError
  | some (m, reload) =>
    match account? with
    | none => .notFound
    | some a =>
      match m with
      | .payg =>
        if !truthyStr a.stripe_payment_method_id then .badRequest a
        else if !truthyInt reload then .badRequest a
        else .ok { a with billing_mode := .payg, reload_amount_cents := reload }
      | .byok => .ok { a with billing_mode := .byok }

/-- The fields of a checkout session that `handleCheckoutCompleted`
(webhooks.ts lines 66-115) reads. `metadata_reload_amount_cents` is
the integer value of `session.metadata.reload_amount_cents` when that
key is present and truthy (non-numeric strings, which `parseInt` turns
into `NaN`, are outside this model); `none` when absent or empty. -/
structure CheckoutSession where
  customer : Option String
  payment_method : Option String
  metadata_reload_amount_cents : Option Int
  deriving DecidableEq, Repr

/-- The reload amount the handler settles on (webhooks.ts lines
88-90): the session metadata value when present, otherwise the
account's stored `reload_amount_cents`. -/
def chosenReload (s : CheckoutSession) (a : Account) : Option Int :=
  match s.metadata_reload_amount_cents with
  | some n => some n
  | none => a.reload_amount_cents

/-- The account row written by `handleCheckoutCompleted` (webhooks.ts
lines 102-114): mode becomes `payg`, the cached balance grows by the
chosen reload amount (`?? 0` when absent), `reload_amount_cents`
becomes the chosen amount falling back to the stored one, and the
session's payment method is stored only when truthy. -/
def checkoutUpdatedAccount (s : CheckoutSession) (a : Account) : Account :=
  { a with
    billing_mode := .payg,
    credit_balance_cents := a.credit_balance_cents + (chosenReload s a).getD 0,
    reload_amount_cents :=
      match chosenReload s a with
      | some n => some n
      | none => a.reload_amount_cents,
    stripe_payment_method_id :=
      if truthyStr s.payment_method then s.payment_method
      else a.stripe_payment_method_id }

/-- Outcome of the checkout-completed webhook handler. `providerError`
is an exception of the awaited `createBalanceTransaction` (webhooks.ts
line 94), which propagates and prevents the account update;
`done credit row` carries the `-reload` credit issued (if any) and the
updated row. -/
inductive CheckoutOutcome
  | ignoredNoCustomer
  | ignoredNoAccount
  | providerError
  | done (creditCall : Option Int) (account : Account)
  deriving DecidableEq, Repr

/-- `handleCheckoutCompleted` (webhooks.ts lines 66-115): bail out on
a falsy session customer or a missing account; record a provider-side
credit of minus the chosen reload amount when that amount and the
stored customer id are truthy; then write the updated row. `account?`
is the row whose `stripe_customer_id` equals the session customer, if
any; `creditOk` is the oracle for the awaited credit call. -/
def handleCheckoutCompleted (s : CheckoutSession) (account? : Option Account)
    (creditOk : Bool) : CheckoutOutcome :=
  if !truthyStr s.customer then .ignoredNoCustomer
  else
    match account? with
    | none => .ignoredNoAccount
    | some a =>
      if truthyInt (chosenReload s a) && truthyStr a.stripe_customer_id then
        if creditOk then
          .done (some (-((chosenReload s a).getD 0))) (checkoutUpdatedAccount s a)
        else .providerError
      else .done none (checkoutUpdatedAccount s a)

/-- The balance evolution of the synchronous reload phase (credits.ts
lines 74-117): the balance grows by the reload amount exactly when it
was insufficient, the reload guard holds, and the charge, the credit
and the local update all succeed. -/
def balanceAfterSyncReload (a : Account) (amount_cents : Int) (env : RemoteEnv) : Int :=
  if a.credit_balance_cents < amount_cents ∧ reloadConfigured a = true ∧
      env.chargeOk = true ∧ env.creditOk = true ∧ env.localUpdateOk = true then
    a.credit_balance_cents + a.reload_amount_cents.getD 0
  else a.credit_balance_cents

/-- Oracle with every remote call and local update succeeding. -/
def envAllOk : RemoteEnv :=
  { chargeOk := true, creditOk := true, localUpdateOk := true,
    asyncRecordOk := true, bgChargeOk := true, bgCreditOk := true }

/-- Oracle where the `-reload` credit of the synchronous reload throws. -/
def envCreditFail : RemoteEnv := { envAllOk with creditOk := false }

/-- Oracle where the local update persisting the reloaded balance throws. -/
def envUpdateFail : RemoteEnv := { envAllOk with localUpdateOk := false }

/-- Oracle where every post-commit asynchronous operation fails. -/
def envAsyncFail : RemoteEnv :=
  { envAllOk with asyncRecordOk := false, bgChargeOk := false, bgCreditOk := false }

/-- A fully configured PAYG account with balance 3 and reload 2000. -/
def acctPayg : Account :=
  { billing_mode := .payg, stripe_customer_id := some "cus_1",
    credit_balance_cents := 3, reload_amount_cents := some 2000,
    reload_threshold_cents := some 200, stripe_payment_method_id := some "pm_1" }

/-- A trial account with balance 3 and nothing configured. -/
def acctTrial : Account :=
  { billing_mode := .trial, stripe_customer_id := none,
    credit_balance_cents := 3, reload_amount_cents := none,
    reload_threshold_cents := some 200, stripe_payment_method_id := none }

/-- `acctPayg` in BYOK mode. -/
def acctByok : Account := { acctPayg with billing_mode := .byok }

/-- `acctPayg` with a reload amount (1 cent) too small to cover a
5-cent deduction from a 3-cent balance. -/
def acctSmallReload : Account := { acctPayg with reload_amount_cents := some 1 }

/-- `acctPayg` with no provider customer id. -/
def acctNoCus : Account := { acctPayg with stripe_customer_id := none }

/-- `acctPayg` with balance 250, above a 100-cent deduction but whose
post-debit balance 150 sits below the 200-cent threshold. -/
def acctThreshold : Account := { acctPayg with credit_balance_cents := 250 }

/-- A trial account whose balance exactly equals a 5-cent deduction. -/
def acctEq5 : Account := { acctTrial with credit_balance_cents := 5 }

/-- `acctTrial` with a stored payment method. -/
def acctPmTrial : Account := { acctTrial with stripe_payment_method_id := some "pm_1" }

/-- A checkout session bound to customer `cus_1` carrying a payment
method and a metadata reload amount of 1500. -/
def wSession : CheckoutSession :=
  { customer := some "cus_1", payment_method := some "pm_9",
    metadata_reload_amount_cents := some 1500 }

/-- The trial account matched by `wSession`'s customer id. -/
def wCheckoutAcct : Account := { acctTrial with stripe_customer_id := some "cus_1" }

/-- A configured reload guard forces a present reload amount. -/
theorem reloadConfigured_isSome (a : Account) (h : reloadConfigured a = true) :
    a.reload_amount_cents.isSome = true := by
  unfold reloadConfigured at h
  simp only [Bool.and_eq_true] at h
  rcases h with ⟨⟨⟨_, _⟩, _⟩, hr⟩
  cases hx : a.reload_amount_cents with
  | none => rw [hx] at hr; simp [truthyInt] at hr
  | some n => simp

/-- Every run of the deduct transaction either reports failure, takes
the BYOK early return, or ends in the debit phase. -/
theorem deductTx_cases (a : Account) (amount_cents : Int) (env : RemoteEnv) :
    (deductTx a amount_cents env).result.success = false
    ∨ (a.billing_mode = .byok ∧ deductTx a amount_cents env = byokEffects a)
    ∨ (∃ cur calls, deductTx a amount_cents env = debitPhase a amount_cents cur calls) := by
  by_cases hb : a.billing_mode = .byok
  · exact Or.inr (Or.inl ⟨hb, by simp [deductTx, hb]⟩)
  · by_cases hlt : a.credit_balance_cents < amount_cents
    · by_cases hrc : reloadConfigured a = true
      · by_cases hch : env.chargeOk = true
        · by_cases hcr : env.creditOk = true
          · by_cases hup : env.localUpdateOk = true
            · by_cases hre : a.credit_balance_cents + a.reload_amount_cents.getD 0 < amount_cents
              · exact Or.inl (by simp [deductTx, hb, hlt, hrc, hch, hcr, hup, hre, depletedResult])
              · exact Or.inr (Or.inr
                  ⟨a.credit_balance_cents + a.reload_amount_cents.getD 0,
                   [.charge (a.reload_amount_cents.getD 0) true,
                    .balanceTx (-(a.reload_amount_cents.getD 0)) true],
                   by simp [deductTx, hb, hlt, hrc, hch, hcr, hup, hre]⟩)
            · exact Or.inl (by simp [deductTx, hb, hlt, hrc, hch, hcr, hup, depletedResult])
          · exact Or.inl (by simp [deductTx, hb, hlt, hrc, hch, hcr, depletedResult])
        · exact Or.inl (by simp [deductTx, hb, hlt, hrc, hch, depletedResult])
      · exact Or.inl (by simp [deductTx, hb, hlt, hrc, depletedResult])
    · exact Or.inr (Or.inr ⟨a.credit_balance_cents, [], by simp [deductTx, hb, hlt]⟩)

/-- The deduct transaction reads only the synchronous entries of the
oracle. -/
theorem deductTx_env_ext (a : Account) (amount_cents : Int) (env₁ env₂ : RemoteEnv)
    (hc : env₁.chargeOk = env₂.chargeOk) (hk : env₁.creditOk = env₂.creditOk)
    (hl : env₁.localUpdateOk = env₂.localUpdateOk) :
    deductTx a amount_cents env₁ = deductTx a amount_cents env₂ := by
  unfold deductTx
  rw [hc, hk, hl]

/-- C1 counterexample: a PAYG account with balance 3 and a configured
reload of 1 cent, deducting 5 with both remote reload calls
succeeding. The claim demands `success=true` and a final balance of
`3 + 1 - 5 = -1`; the code reloads, re-checks, finds `4 < 5`, and
returns `success=false` with balance 4. -/
theorem claim_C1_counterexample :
    (deductTx acctSmallReload 5 envAllOk).result.success = false
    ∧ (deductTx acctSmallReload 5 envAllOk).result.balance_cents = some 4
    ∧ (deductTx acctSmallReload 5 envAllOk).txBalance = 4 := by
  decide

/-- C1 (amended): for every deduct call on an existing PAYG account
with a payment method, a provider customer id and a nonzero reload
amount, where the balance is below the amount, the reloaded balance
covers the amount, and the off-session charge, the provider-side
credit and the local balance update all succeed: the call returns
`success=true` and the persisted and returned balance equals
`currentBalance + reloadAmountCents - amountCents`. -/
theorem claim_C1_amended (a : Account) (amount_cents r : Int) (env : RemoteEnv)
    (hmode : a.billing_mode = .payg)
    (hpm : truthyStr a.stripe_payment_method_id = true)
    (hcus : truthyStr a.stripe_customer_id = true)
    (hr : a.reload_amount_cents = some r) (hr0 : r ≠ 0)
    (hlt : a.credit_balance_cents < amount_cents)
    (hcover : amount_cents ≤ a.credit_balance_cents + r)
    (hch : env.chargeOk = true) (hcr : env.creditOk = true)
    (hup : env.localUpdateOk = true) :
    (deductTx a amount_cents env).result.success = true
    ∧ (deductTx a amount_cents env).result.balance_cents
        = some (a.credit_balance_cents + r - amount_cents)
    ∧ (deductTx a amount_cents env).txBalance
        = a.credit_balance_cents + r - amount_cents := by
  have hrc : reloadConfigured a = true := by
    simp [reloadConfigured, hmode, hpm, hcus, truthyInt, hr, hr0]
  have hb : ¬ a.billing_mode = .byok := by simp [hmode]
  have hre : ¬ (a.credit_balance_cents + r < amount_cents) := not_lt.mpr hcover
  simp [deductTx, hb, hlt, hrc, hch, hcr, hup, hr, hre, debitPhase]

/-- C1 witness: balance 3, reload 2000, deduct 5 with everything
succeeding yields success and balance 1998. -/
theorem claim_C1_witness :
    (deductTx acctPayg 5 envAllOk).result.success = true
    ∧ (deductTx acctPayg 5 envAllOk).result.balance_cents
        = some (acctPayg.credit_balance_cents + 2000 - 5)
    ∧ (deductTx acctPayg 5 envAllOk).txBalance
        = acctPayg.credit_balance_cents + 2000 - 5 :=
  claim_C1_amended acctPayg 5 2000 envAllOk rfl rfl rfl rfl (by decide)
    (by decide) (by decide) rfl rfl rfl

/-- Claim C2: a deduct call on a non-BYOK account with an insufficient
balance, where no reload is configured or the attempted reload fails
at the charge or at the provider-side credit, returns
`success=false, depleted=true` with the pre-call balance, and commits
the balance unchanged: no debit occurs. -/
theorem claim_C2 (a : Account) (amount_cents : Int) (env : RemoteEnv)
    (hmode : a.billing_mode ≠ .byok)
    (hlt : a.credit_balance_cents < amount_cents)
    (hfail : reloadConfigured a = false ∨ env.chargeOk = false ∨ env.creditOk = false) :
    (deductTx a amount_cents env).result
        = depletedResult a.billing_mode a.credit_balance_cents
    ∧ (deductTx a amount_cents env).txBalance = a.credit_balance_cents := by
  rcases hfail with h | h | h
  · simp [deductTx, hmode, hlt, h]
  · by_cases hrc : reloadConfigured a = true
    · simp [deductTx, hmode, hlt, hrc, h]
    · simp [deductTx, hmode, hlt, hrc]
  · by_cases hrc : reloadConfigured a = true
    · by_cases hch : env.chargeOk = true
      · simp [deductTx, hmode, hlt, hrc, hch, h]
      · simp [deductTx, hmode, hlt, hrc, hch]
    · simp [deductTx, hmode, hlt, hrc]

/-- C2 witness: the trial account with balance 3 deducting 5 is
reported depleted with balance 3 and no debit. -/
theorem claim_C2_witness :
    (deductTx acctTrial 5 envAllOk).result
        = depletedResult acctTrial.billing_mode acctTrial.credit_balance_cents
    ∧ (deductTx acctTrial 5 envAllOk).txBalance = acctTrial.credit_balance_cents :=
  claim_C2 acctTrial 5 envAllOk (by decide) (by decide) (Or.inl (by decide))

/-- Claim C3 (code bug): the claim — and §4.3 of the specification —
require a reload whose off-session charge succeeded but whose
provider-side credit or local balance update then failed to surface a
fatal error. The single `try/catch` of credits.ts lines 81-116 instead
swallows both failures into a normal `success=false, depleted=true`
response: below, with balance 3 and reload 2000, the first run has
charged 2000 remotely (the `charge 2000 true` call) and the second has
both charged and recorded the credit, yet each returns the ordinary
depleted response of lines 110-115. -/
theorem claim_C3_code_divergence :
    deductTx acctPayg 5 envCreditFail =
      { result := depletedResult .payg 3, txBalance := 3,
        syncCalls := [.charge 2000 true, .balanceTx (-2000) false],
        asyncRecordFired := false, bgReload := none }
    ∧ deductTx acctPayg 5 envUpdateFail =
      { result := depletedResult .payg 2003, txBalance := 3,
        syncCalls := [.charge 2000 true, .balanceTx (-2000) true],
        asyncRecordFired := false, bgReload := none } := by
  decide

/-- Claim C6: deduction on an existing BYOK account always returns
`success=true, balance_cents=null, depleted=false`, commits the
balance unchanged, and makes no remote payment-provider call. -/
theorem claim_C6 (a : Account) (amount_cents : Int) (env : RemoteEnv)
    (h : a.billing_mode = .byok) :
    deductTx a amount_cents env =
      { result := { success := true, balance_cents := none,
                    billing_mode := .byok, depleted := false },
        txBalance := a.credit_balance_cents,
        syncCalls := [], asyncRecordFired := false, bgReload := none } := by
  simp [deductTx, byokEffects, h]

/-- C6 witness: the BYOK account deducting 999 from balance 3. -/
theorem claim_C6_witness :
    deductTx acctByok 999 envAllOk =
      { result := { success := true, balance_cents := none,
                    billing_mode := .byok, depleted := false },
        txBalance := acctByok.credit_balance_cents,
        syncCalls := [], asyncRecordFired := false, bgReload := none } :=
  claim_C6 acctByok 999 envAllOk rfl

/-- Claim C4: after every successful deduction a background reload is
scheduled exactly when the committed post-debit balance is below
`reload_threshold_cents ?? 200` and the account is PAYG with a payment
method, customer id and reload amount configured; the scheduled amount
is the account's reload amount, and when both background remote calls
succeed the stored balance is incremented in place — whatever value
the row holds at that moment grows by exactly the reload amount. -/
theorem claim_C4 (a : Account) (amount_cents : Int) (env : RemoteEnv)
    (hs : (deductTx a amount_cents env).result.success = true) :
    ((deductTx a amount_cents env).bgReload.isSome = true ↔
      ((deductTx a amount_cents env).txBalance < a.reload_threshold_cents.getD 200
        ∧ reloadConfigured a = true))
    ∧ (∀ r, (deductTx a amount_cents env).bgReload = some r →
        (r = a.reload_amount_cents.getD 0
         ∧ ∀ stored, bgReloadApply (some r) true true stored = stored + r)) := by
  rcases deductTx_cases a amount_cents env with hF | ⟨hb, hE⟩ | ⟨cur, calls, hE⟩
  · rw [hF] at hs; simp at hs
  · rw [hE]
    constructor
    · simp [byokEffects, reloadConfigured, hb]
    · intro r hr; simp [byokEffects] at hr
  · rw [hE]
    constructor
    · by_cases ht : cur - amount_cents < a.reload_threshold_cents.getD 200
      · by_cases hrc : reloadConfigured a = true
        · simp [debitPhase, ht, hrc, reloadConfigured_isSome a hrc]
        · simp [debitPhase, ht, hrc]
      · simp [debitPhase, ht]
    · intro r hr
      simp only [debitPhase] at hr
      split at hr
      · split at hr
        · exact ⟨by simp [hr], fun stored => by simp [bgReloadApply]⟩
        · cases hr
      · cases hr

/-- C4 witness: balance 250, threshold 200, deduct 100 commits 150 and
schedules a background reload because 150 is below 200. -/
theorem claim_C4_witness :
    (deductTx acctThreshold 100 envAllOk).bgReload.isSome = true ↔
      ((deductTx acctThreshold 100 envAllOk).txBalance
          < acctThreshold.reload_threshold_cents.getD 200
        ∧ reloadConfigured acctThreshold = true) :=
  (claim_C4 acctThreshold 100 envAllOk (by decide)).1

/-- Claim C5: the response and the committed balance of every deduct
call are identical for any outcomes of the post-debit asynchronous
operations — two oracles agreeing on the synchronous entries give the
same outcome — and a failed background reload (charge or credit
failing) leaves the stored balance untouched. -/
theorem claim_C5 (account? : Option Account) (amount_cents : Int) (env₁ env₂ : RemoteEnv)
    (hc : env₁.chargeOk = env₂.chargeOk) (hk : env₁.creditOk = env₂.creditOk)
    (hl : env₁.localUpdateOk = env₂.localUpdateOk) :
    deduct account? amount_cents env₁ = deduct account? amount_cents env₂
    ∧ (∀ r stored,
        bgReloadApply (some r) false true stored = stored
        ∧ bgReloadApply (some r) true false stored = stored
        ∧ bgReloadApply (some r) false false stored = stored) := by
  constructor
  · cases account? with
    | none => rfl
    | some a => simp [deduct, deductTx_env_ext a amount_cents env₁ env₂ hc hk hl]
  · exact fun r stored => ⟨rfl, rfl, rfl⟩

/-- C5 witness: the PAYG deduct outcome is the same under the
all-success oracle and the oracle failing every async operation. -/
theorem claim_C5_witness :
    deduct (some acctPayg) 5 envAllOk = deduct (some acctPayg) 5 envAsyncFail :=
  (claim_C5 (some acctPayg) 5 envAllOk envAsyncFail rfl rfl rfl).1

/-- Claim C7: the two depletion predicates differ — the balance
endpoint reports depleted exactly when the cached balance is at most
0, while deduction succeeds exactly when the balance after any
synchronous reload covers the amount; a deduct of exactly the balance
succeeds leaving 0, which the balance endpoint then reports depleted. -/
theorem claim_C7 :
    (∀ a : Account, (accountsBalance a).depleted = decide (a.credit_balance_cents ≤ 0))
    ∧ (∀ (a : Account) (amount_cents : Int) (env : RemoteEnv),
        a.billing_mode ≠ .byok → env.localUpdateOk = true →
        ((deductTx a amount_cents env).result.success = true ↔
          amount_cents ≤ balanceAfterSyncReload a amount_cents env))
    ∧ (∀ (a : Account) (amount_cents : Int) (env : RemoteEnv),
        a.billing_mode ≠ .byok → a.credit_balance_cents = amount_cents →
        ((deductTx a amount_cents env).result.success = true
         ∧ (deductTx a amount_cents env).txBalance = 0
         ∧ (accountsBalance
              { a with credit_balance_cents := (deductTx a amount_cents env).txBalance }).depleted
             = true)) := by
  refine ⟨fun a => rfl, ?_, ?_⟩
  · intro a n env hb hup
    by_cases hlt : a.credit_balance_cents < n
    · by_cases hrc : reloadConfigured a = true
      · by_cases hch : env.chargeOk = true
        · by_cases hcr : env.creditOk = true
          · by_cases hre : a.credit_balance_cents + a.reload_amount_cents.getD 0 < n
            · simp [deductTx, hb, hlt, hrc, hch, hcr, hup, hre, depletedResult,
                balanceAfterSyncReload]
            · simp [deductTx, hb, hlt, hrc, hch, hcr, hup, hre, debitPhase,
                balanceAfterSyncReload]
              omega
          · simp [deductTx, hb, hlt, hrc, hch, hcr, depletedResult,
              balanceAfterSyncReload]
        · simp [deductTx, hb, hlt, hrc, hch, depletedResult, balanceAfterSyncReload]
      · simp [deductTx, hb, hlt, hrc, depletedResult, balanceAfterSyncReload]
    · simp [deductTx, hb, hlt, debitPhase, balanceAfterSyncReload]
      omega
  · intro a n env hb heq
    have hnlt : ¬ (a.credit_balance_cents < n) := by omega
    refine ⟨by simp [deductTx, hb, hnlt, debitPhase], ?_, ?_⟩
    · simp [deductTx, hb, hnlt, debitPhase]; omega
    · simp [deductTx, hb, hnlt, debitPhase, accountsBalance]; omega

/-- C7 witness: a trial account with balance 5 deducting 5 succeeds,
commits 0, and the balance endpoint then reports depleted. -/
theorem claim_C7_witness :
    (deductTx acctEq5 5 envAllOk).result.success = true
    ∧ (deductTx acctEq5 5 envAllOk).txBalance = 0
    ∧ (accountsBalance
         { acctEq5 with credit_balance_cents := (deductTx acctEq5 5 envAllOk).txBalance }).depleted
        = true :=
  claim_C7.2.2 acctEq5 5 envAllOk (by decide) rfl

/-- Claim C8: a mode-update request for `trial` fails validation
regardless of the account; a `payg` request on an account without a
stored payment method is rejected with a client error leaving the
account unchanged (as is any `payg` request without a reload amount);
and a `payg` request on an account with a payment method and a
positive reload amount persists `payg` with that reload amount. -/
theorem claim_C8 :
    (∀ (account? : Option Account) (reload : Option Int),
        updateMode account? "trial" reload = .validationError)
    ∧ (∀ a : Account, truthyStr a.stripe_payment_method_id = false →
        (updateMode (some a) "payg" none = .badRequest a
         ∧ ∀ n : Int, 0 < n → updateMode (some a) "payg" (some n) = .badRequest a))
    ∧ (∀ a : Account, updateMode (some a) "payg" none = .badRequest a)
    ∧ (∀ (a : Account) (n : Int), truthyStr a.stripe_payment_method_id = true → 0 < n →
        updateMode (some a) "payg" (some n)
          = .ok { a with billing_mode := .payg, reload_amount_cents := some n }) := by
  have ht1 : ("trial" : String) ≠ "byok" := by decide
  have ht2 : ("trial" : String) ≠ "payg" := by decide
  have hp1 : ("payg" : String) ≠ "byok" := by decide
  refine ⟨?_, ?_, ?_, ?_⟩
  · intro account? reload
    simp [updateMode, parseUpdateMode, ht1, ht2]
  · intro a hpm
    constructor
    · simp [updateMode, parseUpdateMode, hp1, hpm]
    · intro n hn
      simp [updateMode, parseUpdateMode, hp1, hn, hpm]
  · intro a
    by_cases hpm : truthyStr a.stripe_payment_method_id = true
    · simp [updateMode, parseUpdateMode, hp1, hpm, truthyInt]
    · simp [updateMode, parseUpdateMode, hp1, hpm]
  · intro a n hpm hn
    have hn0 : ¬ (n = 0) := by omega
    simp [updateMode, parseUpdateMode, hp1, hn, hpm, truthyInt, hn0]

/-- C8 witness: `trial` is rejected at validation; `payg` without a
payment method, and `payg` without a reload amount, are rejected
leaving the row unchanged; `payg` with a payment method and reload
2000 persists both. -/
theorem claim_C8_witness :
    updateMode (some acctTrial) "trial" none = .validationError
    ∧ updateMode (some acctTrial) "payg" (some 2000) = .badRequest acctTrial
    ∧ updateMode (some acctPmTrial) "payg" none = .badRequest acctPmTrial
    ∧ updateMode (some acctPmTrial) "payg" (some 2000)
        = .ok { acctPmTrial with billing_mode := .payg, reload_amount_cents := some 2000 } :=
  ⟨claim_C8.1 (some acctTrial) none,
   (claim_C8.2.1 acctTrial rfl).2 2000 (by decide),
   claim_C8.2.2.1 acctPmTrial,
   claim_C8.2.2.2 acctPmTrial 2000 rfl (by decide)⟩

/-- Claim C9: for a verified checkout-completed event whose non-empty
customer id matches a stored account, when the awaited provider credit
succeeds the handler returns the updated row: it chooses the reload
amount from the session metadata with fallback to the stored one,
issues a provider-side credit of minus that amount when it is nonzero,
sets the mode to `payg`, grows the cached balance by the amount (by 0
when both sources are absent), and stores the session's payment method
exactly when one is present. -/
theorem claim_C9 (s : CheckoutSession) (a : Account) (c : String)
    (hc : s.customer = some c) (hne : c ≠ "")
    (hmatch : a.stripe_customer_id = some c) :
    handleCheckoutCompleted s (some a) true =
      .done (if truthyInt (chosenReload s a)
              then some (-((chosenReload s a).getD 0)) else none)
        (checkoutUpdatedAccount s a)
    ∧ (checkoutUpdatedAccount s a).billing_mode = .payg
    ∧ (checkoutUpdatedAccount s a).credit_balance_cents
        = a.credit_balance_cents + (chosenReload s a).getD 0
    ∧ (∀ pm, s.payment_method = some pm → pm ≠ "" →
        (checkoutUpdatedAccount s a).stripe_payment_method_id = some pm)
    ∧ (s.payment_method = none →
        (checkoutUpdatedAccount s a).stripe_payment_method_id
          = a.stripe_payment_method_id) := by
  have hcust : truthyStr s.customer = true := by simp [truthyStr, hc, hne]
  have hacust : truthyStr a.stripe_customer_id = true := by simp [truthyStr, hmatch, hne]
  refine ⟨?_, rfl, rfl, ?_, ?_⟩
  · by_cases hR : truthyInt (chosenReload s a) = true
    · simp [handleCheckoutCompleted, hcust, hacust, hR]
    · simp [handleCheckoutCompleted, hcust, hR]
  · intro pm hpm hpm0
    simp [checkoutUpdatedAccount, truthyStr, hpm, hpm0]
  · intro hnone
    simp [checkoutUpdatedAccount, truthyStr, hnone]

/-- C9 witness: the session for `cus_1` with payment method `pm_9` and
metadata amount 1500 applied to the matching trial account. -/
theorem claim_C9_witness :
    handleCheckoutCompleted wSession (some wCheckoutAcct) true =
      .done (if truthyInt (chosenReload wSession wCheckoutAcct)
              then some (-((chosenReload wSession wCheckoutAcct).getD 0)) else none)
        (checkoutUpdatedAccount wSession wCheckoutAcct) :=
  (claim_C9 wSession wCheckoutAcct "cus_1" rfl (by decide) rfl).1

/-- Claim C10: both reload paths also require a truthy provider
customer id. On a PAYG account with a payment method and reload amount
but no customer id, an insufficient balance is reported depleted with
the balance unchanged and no remote call attempted, and a sufficient
balance debits normally with no background reload scheduled (and no
async balance-transaction record fired). -/
theorem claim_C10 (a : Account) (amount_cents : Int) (env : RemoteEnv)
    (hmode : a.billing_mode = .payg)
    (_hpm : truthyStr a.stripe_payment_method_id = true)
    (_hr : truthyInt a.reload_amount_cents = true)
    (hcus : truthyStr a.stripe_customer_id = false) :
    (a.credit_balance_cents < amount_cents →
      deductTx a amount_cents env =
        { result := depletedResult a.billing_mode a.credit_balance_cents,
          txBalance := a.credit_balance_cents,
          syncCalls := [], asyncRecordFired := false, bgReload := none })
    ∧ (amount_cents ≤ a.credit_balance_cents →
        ((deductTx a amount_cents env).result.success = true
         ∧ (deductTx a amount_cents env).txBalance
             = a.credit_balance_cents - amount_cents
         ∧ (deductTx a amount_cents env).syncCalls = []
         ∧ (deductTx a amount_cents env).asyncRecordFired = false
         ∧ (deductTx a amount_cents env).bgReload = none)) := by
  have hrc : reloadConfigured a = false := by simp [reloadConfigured, hcus]
  have hb : ¬ a.billing_mode = .byok := by simp [hmode]
  constructor
  · intro hlt
    simp [deductTx, hb, hlt, hrc]
  · intro hge
    have hnlt : ¬ (a.credit_balance_cents < amount_cents) := not_lt.mpr hge
    simp [deductTx, hb, hnlt, debitPhase, hcus, hrc]

/-- C10 witness: the PAYG account with balance 3, payment method and
reload 2000 but no customer id deducting 5 is depleted, unchanged,
with no remote call. -/
theorem claim_C10_witness :
    deductTx acctNoCus 5 envAllOk =
      { result := depletedResult acctNoCus.billing_mode acctNoCus.credit_balance_cents,
        txBalance := acctNoCus.credit_balance_cents,
        syncCalls := [], asyncRecordFired := false, bgReload := none } :=
  (claim_C10 acctNoCus 5 envAllOk rfl rfl rfl rfl).1 (by decide)

end Billing
